import Mathlib

/-!
Verification of the socket HTTP server (`http_server.py`).

Python strings and byte strings are modelled as `List Char`; `bytes.encode`
on the ASCII text that flows through this program is the identity, so text
and bytes share one representation.  Exceptions are modelled with `Except`
over the inductive `PyError`; the filesystem (`os.path`, `os.listdir`,
`mimetypes.guess_type`, file reads) is an abstract record of functions so
that theorems quantify over every possible filesystem state.
-/

namespace HttpServer

/-- The character list of a string literal (our model of Python str/bytes). -/
def chars (s : String) : List Char := s.data

/-- The exceptions raised by the translated code paths: `NotImplementedError`
from `parse_request`, `NameError` from `response_path`, and `IndexError`
from the `request.split()[1]` subscript. -/
inductive PyError
  | notImplementedError
  | nameError
  | indexError
  deriving DecidableEq

/-- Python `"\r\n".join(xs)` (line 25, 36, 47, 116 of `http_server.py`). -/
def joinCRLF : List (List Char) → List Char
  | [] => []
  | [x] => x
  | x :: rest => x ++ chars "\r\n" ++ joinCRLF rest

/-- `response_ok(body, mimetype)` (lines 8-30): joins the status line, the
Content-Type header, a blank line and the body with CRLF. -/
def response_ok (body mimetype : List Char) : List Char :=
  joinCRLF [chars "HTTP/1.1 200 OK", chars "Content-Type: " ++ mimetype, [], body]

/-- `response_method_not_allowed()` (lines 33-41). -/
def response_method_not_allowed : List Char :=
  joinCRLF [chars "HTTP/1.1 405 Method Not Allowed", chars "Content-Type: text/html",
    [], chars "<html><h1>The request method is not allowed...", chars "</h1></html>"]

/-- `response_not_found()` (lines 44-51). -/
def response_not_found : List Char :=
  joinCRLF [chars "HTTP/1.1 404 Not Found", chars "Content-Type: text/plain",
    [], chars "Error encountered while visiting"]

/-- Whitespace for Python `str.split()` with no separator (the characters
it splits on for the ASCII/Latin-1 range). -/
def pyIsSpace (c : Char) : Bool :=
  c = ' ' || c = '\t' || c = '\n' || c = '\r' || c = '\x0b' || c = '\x0c' ||
  c = '\x1c' || c = '\x1d' || c = '\x1e' || c = '\x1f' || c = '\x85' || c = '\xa0'

/-- Accumulator loop for `str.split()`: splits on runs of whitespace and
drops empty pieces. -/
def pySplitAux : List Char → List Char → List (List Char)
  | [], acc => if acc = [] then [] else [acc.reverse]
  | c :: rest, acc =>
    if pyIsSpace c then
      if acc = [] then pySplitAux rest [] else acc.reverse :: pySplitAux rest []
    else pySplitAux rest (c :: acc)

/-- Python `request.split()` (line 65): whitespace-delimited tokens of the
whole text, line breaks included. -/
def pySplit (s : List Char) : List (List Char) := pySplitAux s []

/-- Boolean test that `pat` starts `s`. -/
def startsWithB : List Char → List Char → Bool
  | [], _ => true
  | _ :: _, [] => false
  | a :: pat, b :: s => a == b && startsWithB pat s

/-- Python `pat in s` for strings (line 62): `pat` occurs as a contiguous
substring of `s`. -/
def containsSub (pat : List Char) : List Char → Bool
  | [] => startsWithB pat []
  | c :: rest => startsWithB pat (c :: rest) || containsSub pat rest

/-- The first line of a request: the characters before the first CRLF. -/
def firstLine : List Char → List Char
  | [] => []
  | '\r' :: '\n' :: _ => []
  | c :: rest => c :: firstLine rest

/-- `parse_request(request)` (lines 54-65): raises `NotImplementedError`
when the substring `GET` does not occur anywhere in the text, otherwise
returns `request.split()[1]`, which raises `IndexError` when fewer than two
tokens exist. -/
def parse_request (request : List Char) : Except PyError (List Char) :=
  if containsSub (chars "GET") request = false then
    Except.error PyError.notImplementedError
  else
    match pySplit request with
    | _ :: t :: _ => Except.ok t
    | _ => Except.error PyError.indexError

/-- Abstract filesystem state, modelling `os.path.exists`, `os.path.isfile`,
`mimetypes.guess_type(p)[0]` (`none` when no type can be determined),
reading a file's bytes (`none` when `open`/`read` raises), and
`os.listdir` in filesystem enumeration order. -/
structure FileSystem where
  path_exists : List Char → Bool
  is_file : List Char → Bool
  guess_type : List Char → Option (List Char)
  read_file : List Char → Option (List Char)
  listdir : List Char → List (List Char)

/-- `os.path.join(a, b)` for two POSIX arguments: `b` when `b` is absolute,
otherwise `a` and `b` glued with at most one separator. -/
def os_path_join (a b : List Char) : List Char :=
  if b.take 1 = chars "/" then b
  else if a = [] ∨ a.getLast? = some '/' then a ++ b
  else a ++ chars "/" ++ b

/-- `os.path.join(os.getcwd(), 'webroot' + path)` (line 96): the one
filesystem location `response_path` consults. -/
def resolved_location (cwd path : List Char) : List Char :=
  os_path_join cwd (chars "webroot" ++ path)

/-- `response_path(path)` (lines 68-118) over an abstract filesystem and
working directory: `NameError` when the location does not exist; for a file,
the contents paired with the guessed mimetype, with a failed type guess or a
failed read collapsed to `NameError`; for a directory, the CRLF-joined
listing paired with `text/plain`. -/
def response_path (fs : FileSystem) (cwd path : List Char) :
    Except PyError (List Char × List Char) :=
  if fs.path_exists (resolved_location cwd path) = false then
    Except.error PyError.nameError
  else if fs.is_file (resolved_location cwd path) = true then
    match fs.guess_type (resolved_location cwd path),
          fs.read_file (resolved_location cwd path) with
    | some mime_type, some content => Except.ok (content, mime_type)
    | _, _ => Except.error PyError.nameError
  else
    Except.ok (joinCRLF (fs.listdir (resolved_location cwd path)), chars "text/plain")

/-- The inner `try` block of the handler (lines 146-157): parse the request,
resolve the path, build the 200 response; any raised exception propagates. -/
def try_block (fs : FileSystem) (cwd request : List Char) :
    Except PyError (List Char) :=
  match parse_request request with
  | Except.error e => Except.error e
  | Except.ok path =>
    match response_path fs cwd path with
    | Except.error e => Except.error e
    | Except.ok (content, mime_type) => Except.ok (response_ok content mime_type)

/-- The inner `try`/`except` of the handler (lines 146-164): the response
that will be sent, or the exception that escapes to the outer handler
(lines 167-168) so that nothing is sent. -/
def process (fs : FileSystem) (cwd request : List Char) :
    Except PyError (List Char) :=
  match try_block fs cwd request with
  | Except.ok r => Except.ok r
  | Except.error PyError.notImplementedError => Except.ok response_method_not_allowed
  | Except.error PyError.nameError => Except.ok response_not_found
  | Except.error e => Except.error e

/-- Observable socket actions of the handler for one connection. -/
inductive ConnEvent
  | send (r : List Char)
  | close
  deriving DecidableEq

/-- The event trace of lines 146-170 for one accepted connection whose
accumulated request text is `request`: `conn.sendall(response)` when the
inner block produced a response, nothing when an uncaught exception reached
the outer `except`, and in either case the `finally: conn.close()`. -/
def handle_conn (fs : FileSystem) (cwd request : List Char) : List ConnEvent :=
  (match process fs cwd request with
   | Except.ok r => [ConnEvent.send r]
   | Except.error _ => []) ++ [ConnEvent.close]

/-- Number of `send` events in a trace. -/
def countSends : List ConnEvent → Nat
  | [] => 0
  | ConnEvent.send _ :: rest => countSends rest + 1
  | ConnEvent.close :: rest => countSends rest

/-- Number of `close` events in a trace. -/
def countCloses : List ConnEvent → Nat
  | [] => 0
  | ConnEvent.send _ :: rest => countCloses rest
  | ConnEvent.close :: rest => countCloses rest + 1

/-- Split a path at `/` separators (empty pieces kept). -/
def splitSlashAux : List Char → List Char → List (List Char)
  | [], acc => [acc.reverse]
  | c :: rest, acc =>
    if c = '/' then acc.reverse :: splitSlashAux rest []
    else splitSlashAux rest (c :: acc)

/-- All `/`-separated pieces of a path. -/
def splitSlash (p : List Char) : List (List Char) := splitSlashAux p []

/-- Glue path segments back together with `/`. -/
def joinSlash : List (List Char) → List Char
  | [] => []
  | [x] => x
  | x :: rest => x ++ '/' :: joinSlash rest

/-- Stack-based elimination of `.` and `..` segments. -/
def normSegsAux : List (List Char) → List (List Char) → List (List Char)
  | [], acc => acc.reverse
  | s :: rest, acc =>
    if s = chars ".." then normSegsAux rest (acc.drop 1)
    else if s = [] ∨ s = chars "." then normSegsAux rest acc
    else normSegsAux rest (s :: acc)

/-- Modelled from the spec: the operating system's resolution of an absolute
POSIX path, in which a `..` segment cancels the preceding segment.  The
server itself performs no such normalization; this reference model is used
only to state that an unnormalized `..` in the resolved location escapes
the document root. -/
def posix_resolve (p : List Char) : List Char :=
  chars "/" ++ joinSlash (normSegsAux (splitSlash p) [])

/-- A filesystem on which no path exists. -/
def fsEmpty : FileSystem where
  path_exists := fun _ => false
  is_file := fun _ => false
  guess_type := fun _ => none
  read_file := fun _ => none
  listdir := fun _ => []

/-- A filesystem whose every location is a directory with two entries. -/
def fsDir : FileSystem where
  path_exists := fun _ => true
  is_file := fun _ => false
  guess_type := fun _ => none
  read_file := fun _ => none
  listdir := fun _ => [chars "a.html", chars "sub"]

/-- C1 counterexample: the request `"GET\r\nfoo bar"` contains `GET` and has
three whitespace-delimited tokens, yet `parse_request` returns `"foo"`,
which comes from the second line: the first line `"GET"` has no second
token at all, so the returned value is not the second token of the first
line. -/
theorem parse_request_first_line_cex :
    containsSub (chars "GET") (chars "GET\r\nfoo bar") = true
    ∧ 1 < (pySplit (chars "GET\r\nfoo bar")).length
    ∧ parse_request (chars "GET\r\nfoo bar") = Except.ok (chars "foo")
    ∧ (pySplit (firstLine (chars "GET\r\nfoo bar")))[1]? = none
    ∧ chars "foo" ∉ pySplit (firstLine (chars "GET\r\nfoo bar")) :=
  ⟨by decide, by decide, rfl, by decide, by decide⟩

/-- C1 (amended): for every request in which `GET` occurs as a substring and
which has at least two whitespace-delimited tokens, `parse_request` returns
the second whitespace-delimited token of the whole request text (whitespace
splitting spans line breaks); in particular
`parse_request "GET /foo.html HTTP/1.1\r\n\r\n"` returns `"/foo.html"`. -/
theorem parse_request_second_token :
    (∀ request t : List Char, containsSub (chars "GET") request = true →
      (pySplit request)[1]? = some t →
      parse_request request = Except.ok t)
    ∧ parse_request (chars "GET /foo.html HTTP/1.1\r\n\r\n") =
        Except.ok (chars "/foo.html") := by
  constructor
  · intro request t hGET hTok
    simp only [parse_request, hGET, Bool.true_eq_false, if_false]
    rcases hs : pySplit request with _ | ⟨a, _ | ⟨b, rest⟩⟩ <;> rw [hs] at hTok
    · simp at hTok
    · simp at hTok
    · simp only [List.getElem?_cons_succ, List.getElem?_cons_zero,
        Option.some.injEq] at hTok
      subst hTok
      rfl
  · rfl

/-- C1 witness: a concrete application of the amended statement. -/
theorem parse_request_second_token_witness :
    parse_request (chars "GET /a b\r\n\r\n") = Except.ok (chars "/a") :=
  parse_request_second_token.1 (chars "GET /a b\r\n\r\n") (chars "/a")
    (by decide) (by decide)

/-- C4: for every body and mimetype, `response_ok` returns exactly the
status line, `Content-Type: ` + mimetype, a blank line and the body,
CRLF-separated; in particular on body `<html></html>` and mimetype
`text/html` it returns the exact scenario bytes from the spec. -/
theorem response_ok_layout :
    (∀ body mimetype : List Char,
      response_ok body mimetype =
        chars "HTTP/1.1 200 OK\r\nContent-Type: " ++ mimetype ++ chars "\r\n\r\n" ++ body)
    ∧ response_ok (chars "<html></html>") (chars "text/html") =
        chars "HTTP/1.1 200 OK\r\nContent-Type: text/html\r\n\r\n<html></html>" := by
  constructor
  · intro body mimetype
    have h1 : chars "HTTP/1.1 200 OK\r\nContent-Type: " =
        chars "HTTP/1.1 200 OK" ++ chars "\r\n" ++ chars "Content-Type: " := by decide
    have h2 : chars "\r\n\r\n" = chars "\r\n" ++ chars "\r\n" := by decide
    simp [response_ok, joinCRLF, h1, h2]
  · decide

/-- C2: `parse_request` raises the unsupported-method error exactly when the
substring `GET` occurs nowhere in the request text, and for such requests
the handler sends the fixed 405 response, which begins with
`HTTP/1.1 405 Method Not Allowed`. -/
theorem parse_request_405 :
    ∀ request : List Char,
      (parse_request request = Except.error PyError.notImplementedError ↔
        containsSub (chars "GET") request = false)
      ∧ (containsSub (chars "GET") request = false →
          ∀ (fs : FileSystem) (cwd : List Char),
            handle_conn fs cwd request =
              [ConnEvent.send response_method_not_allowed, ConnEvent.close])
      ∧ startsWithB (chars "HTTP/1.1 405 Method Not Allowed")
          response_method_not_allowed = true := by
  intro request
  refine ⟨?_, ?_, by decide⟩
  · cases hG : containsSub (chars "GET") request
    · simp [parse_request, hG]
    · simp only [parse_request, hG, Bool.true_eq_false, if_false]
      rcases pySplit request with _ | ⟨a, _ | ⟨b, rest⟩⟩ <;> simp
  · intro hG fs cwd
    simp [handle_conn, process, try_block, parse_request, hG]

/-- C2 witness: a request without `GET` yields the 405 trace. -/
theorem parse_request_405_witness :
    handle_conn fsEmpty (chars "/srv") (chars "POST /index.html HTTP/1.1\r\n\r\n") =
      [ConnEvent.send response_method_not_allowed, ConnEvent.close] :=
  (parse_request_405 (chars "POST /index.html HTTP/1.1\r\n\r\n")).2.1 (by decide)
    fsEmpty (chars "/srv")

/-- C3: `response_path` fails with `NameError` exactly when the resolved
location does not exist, or it is a regular file whose MIME type cannot be
guessed or whose read fails; `NameError` is its only failure; and the
handler turns that failure into the 404 response. -/
theorem response_path_not_found_iff :
    ∀ (fs : FileSystem) (cwd path : List Char),
      (response_path fs cwd path = Except.error PyError.nameError ↔
        (fs.path_exists (resolved_location cwd path) = false
          ∨ (fs.is_file (resolved_location cwd path) = true
              ∧ (fs.guess_type (resolved_location cwd path) = none
                  ∨ fs.read_file (resolved_location cwd path) = none))))
      ∧ (∀ e, response_path fs cwd path = Except.error e → e = PyError.nameError)
      ∧ (∀ request, parse_request request = Except.ok path →
          response_path fs cwd path = Except.error PyError.nameError →
          handle_conn fs cwd request =
            [ConnEvent.send response_not_found, ConnEvent.close]) := by
  intro fs cwd path
  refine ⟨?_, ?_, ?_⟩
  · cases hE : fs.path_exists (resolved_location cwd path)
    · simp [response_path, hE]
    · cases hF : fs.is_file (resolved_location cwd path)
      · simp [response_path, hE, hF]
      · rcases hG : fs.guess_type (resolved_location cwd path) with _ | mt <;>
          rcases hR : fs.read_file (resolved_location cwd path) with _ | ct <;>
          simp [response_path, hE, hF, hG, hR]
  · intro e he
    cases hE : fs.path_exists (resolved_location cwd path)
    · simp [response_path, hE] at he
      exact he.symm
    · cases hF : fs.is_file (resolved_location cwd path)
      · simp [response_path, hE, hF] at he
      · rcases hG : fs.guess_type (resolved_location cwd path) with _ | mt <;>
          rcases hR : fs.read_file (resolved_location cwd path) with _ | ct <;>
          simp [response_path, hE, hF, hG, hR] at he <;>
          exact he.symm
  · intro request hp hr
    simp [handle_conn, process, try_block, hp, hr]

/-- C3 witness: on the empty filesystem, every location is missing, so
`response_path` fails with `NameError`. -/
theorem response_path_not_found_iff_witness :
    response_path fsEmpty (chars "/srv") (chars "/missing.txt") =
      Except.error PyError.nameError :=
  ((response_path_not_found_iff fsEmpty (chars "/srv") (chars "/missing.txt")).1).mpr
    (Or.inl rfl)

/-- C5: for an existing location that is not a regular file, `response_path`
returns the `listdir` entry names joined by CRLF in enumeration order with
mimetype `text/plain`, and the content is empty for an empty directory. -/
theorem response_path_directory :
    ∀ (fs : FileSystem) (cwd path : List Char),
      fs.path_exists (resolved_location cwd path) = true →
      fs.is_file (resolved_location cwd path) = false →
      response_path fs cwd path =
        Except.ok (joinCRLF (fs.listdir (resolved_location cwd path)), chars "text/plain")
      ∧ (fs.listdir (resolved_location cwd path) = [] →
          response_path fs cwd path = Except.ok ([], chars "text/plain")) := by
  intro fs cwd path hE hF
  constructor
  · simp [response_path, hE, hF]
  · intro hL
    simp [response_path, hE, hF, hL, joinCRLF]

/-- C5 witness: a directory with entries `a.html` and `sub` lists them
CRLF-joined in order, as `text/plain`. -/
theorem response_path_directory_witness :
    response_path fsDir (chars "/srv") (chars "/") =
      Except.ok (chars "a.html\r\nsub", chars "text/plain") := by
  have h := (response_path_directory fsDir (chars "/srv") (chars "/") rfl rfl).1
  rw [h]
  rfl

/-- C6: `response_not_found` is exactly the fixed 404 bytes, and the handler
sends it whenever the parsed path's resolved location does not exist. -/
theorem response_not_found_spec :
    response_not_found =
      chars "HTTP/1.1 404 Not Found\r\nContent-Type: text/plain\r\n\r\nError encountered while visiting"
    ∧ (∀ (fs : FileSystem) (cwd request path : List Char),
        parse_request request = Except.ok path →
        fs.path_exists (resolved_location cwd path) = false →
        handle_conn fs cwd request =
          [ConnEvent.send response_not_found, ConnEvent.close]) := by
  refine ⟨by decide, ?_⟩
  intro fs cwd request path hp hE
  simp [handle_conn, process, try_block, hp, response_path, hE]

/-- C6 witness: requesting `/missing.txt` on the empty filesystem produces
the 404 trace. -/
theorem response_not_found_spec_witness :
    handle_conn fsEmpty (chars "/srv") (chars "GET /missing.txt HTTP/1.1\r\n\r\n") =
      [ConnEvent.send response_not_found, ConnEvent.close] :=
  response_not_found_spec.2 fsEmpty (chars "/srv")
    (chars "GET /missing.txt HTTP/1.1\r\n\r\n") (chars "/missing.txt") rfl rfl

/-- C7: `response_path` consults the filesystem only at
`os.path.join(cwd, 'webroot' + path)`; for an ordinary working directory
that location is the literal concatenation `cwd ++ "/webroot" ++ path`; the
`..` segments of the request path are kept verbatim, so under POSIX
resolution the location `/srv/webroot/../secret` escapes the document
root `/srv/webroot/`. -/
theorem resolved_location_spec :
    (∀ (fs fs2 : FileSystem) (cwd path : List Char),
      fs.path_exists (resolved_location cwd path) =
        fs2.path_exists (resolved_location cwd path) →
      fs.is_file (resolved_location cwd path) =
        fs2.is_file (resolved_location cwd path) →
      fs.guess_type (resolved_location cwd path) =
        fs2.guess_type (resolved_location cwd path) →
      fs.read_file (resolved_location cwd path) =
        fs2.read_file (resolved_location cwd path) →
      fs.listdir (resolved_location cwd path) =
        fs2.listdir (resolved_location cwd path) →
      response_path fs cwd path = response_path fs2 cwd path)
    ∧ (∀ cwd path : List Char, cwd ≠ [] → cwd.getLast? ≠ some '/' →
        resolved_location cwd path = cwd ++ chars "/webroot" ++ path)
    ∧ resolved_location (chars "/srv") (chars "/../secret") =
        chars "/srv/webroot/../secret"
    ∧ posix_resolve (resolved_location (chars "/srv") (chars "/../secret")) =
        chars "/srv/secret"
    ∧ startsWithB (chars "/srv/webroot/")
        (posix_resolve (resolved_location (chars "/srv") (chars "/../secret"))) = false := by
  refine ⟨?_, ?_, by rfl, by rfl, by rfl⟩
  · intro fs fs2 cwd path h1 h2 h3 h4 h5
    simp only [response_path, h1, h2, h3, h4, h5]
  · intro cwd path hne hlast
    have htake : (chars "webroot" ++ path).take 1 = ['w'] := rfl
    have hcond : ¬((chars "webroot" ++ path).take 1 = chars "/") := by
      rw [htake]
      decide
    unfold resolved_location os_path_join
    rw [if_neg hcond, if_neg (not_or.mpr ⟨hne, hlast⟩)]
    simp only [List.append_assoc]
    rfl

/-- C7 witness: an ordinary working directory and path give the literal
concatenation. -/
theorem resolved_location_spec_witness :
    resolved_location (chars "/home/user") (chars "/index.html") =
      chars "/home/user" ++ chars "/webroot" ++ chars "/index.html" :=
  resolved_location_spec.2.1 (chars "/home/user") (chars "/index.html")
    (by decide) (by decide)

/-- C8: any response the handler produces is the 405 bytes, the 404 bytes,
or `response_ok` of some content and mimetype; every `send` event in the
connection trace carries one of those three shapes; and when the inner
block fails unexpectedly nothing is sent at all. -/
theorem response_shapes_closed :
    ∀ (fs : FileSystem) (cwd request : List Char),
      (∀ r, process fs cwd request = Except.ok r →
        r = response_method_not_allowed ∨ r = response_not_found
          ∨ ∃ content mimetype, r = response_ok content mimetype)
      ∧ (∀ e, process fs cwd request = Except.error e →
          handle_conn fs cwd request = [ConnEvent.close])
      ∧ (∀ r, ConnEvent.send r ∈ handle_conn fs cwd request →
          r = response_method_not_allowed ∨ r = response_not_found
            ∨ ∃ content mimetype, r = response_ok content mimetype) := by
  intro fs cwd request
  have htbok : ∀ v, try_block fs cwd request = Except.ok v →
      ∃ content mimetype, v = response_ok content mimetype := by
    intro v hv
    rcases hp : parse_request request with e | path
    · simp only [try_block, hp] at hv
      simp at hv
    · rcases hq : response_path fs cwd path with e2 | ⟨content, mime⟩
      · simp only [try_block, hp, hq] at hv
        simp at hv
      · simp only [try_block, hp, hq, Except.ok.injEq] at hv
        exact ⟨content, mime, hv.symm⟩
  have hmain : ∀ r, process fs cwd request = Except.ok r →
      r = response_method_not_allowed ∨ r = response_not_found
        ∨ ∃ content mimetype, r = response_ok content mimetype := by
    intro r hr
    rcases htb : try_block fs cwd request with e | v
    · cases e <;> simp only [process, htb, Except.ok.injEq] at hr
      · exact Or.inl hr.symm
      · exact Or.inr (Or.inl hr.symm)
      · exact Except.noConfusion hr
    · simp only [process, htb, Except.ok.injEq] at hr
      obtain ⟨c, m, hv⟩ := htbok v htb
      exact Or.inr (Or.inr ⟨c, m, hr ▸ hv⟩)
  refine ⟨hmain, ?_, ?_⟩
  · intro e he
    simp [handle_conn, he]
  · intro r hmem
    rcases hp : process fs cwd request with e | v
    · simp [handle_conn, hp] at hmem
    · simp only [handle_conn, hp, List.singleton_append, List.mem_cons,
        List.not_mem_nil, or_false, ConnEvent.send.injEq] at hmem
      rcases hmem with hmem | hmem
      · exact hmem ▸ hmain v hp
      · exact absurd hmem (by simp)

/-- C8 witness: the 405 response produced for a GET-less request has one of
the three permitted shapes. -/
theorem response_shapes_closed_witness :
    response_method_not_allowed = response_method_not_allowed
      ∨ response_method_not_allowed = response_not_found
      ∨ ∃ content mimetype, response_method_not_allowed = response_ok content mimetype :=
  (response_shapes_closed fsEmpty (chars "/srv") (chars "abc")).1
    response_method_not_allowed rfl

/-- C9: for every connection the trace is either a lone close or exactly one
send followed by the close; the close is always last, happens exactly once,
at most one send occurs, and whenever the inner block succeeds exactly one
send occurs. -/
theorem handle_conn_trace :
    ∀ (fs : FileSystem) (cwd request : List Char),
      (handle_conn fs cwd request = [ConnEvent.close]
        ∨ ∃ r, handle_conn fs cwd request = [ConnEvent.send r, ConnEvent.close])
      ∧ (handle_conn fs cwd request).getLast? = some ConnEvent.close
      ∧ countCloses (handle_conn fs cwd request) = 1
      ∧ countSends (handle_conn fs cwd request) ≤ 1
      ∧ ((∃ r, process fs cwd request = Except.ok r) →
          countSends (handle_conn fs cwd request) = 1) := by
  intro fs cwd request
  rcases hp : process fs cwd request with e | r
  · refine ⟨Or.inl ?_, ?_, ?_, ?_, ?_⟩
    · simp [handle_conn, hp]
    · simp [handle_conn, hp]
    · simp [handle_conn, hp, countCloses]
    · simp [handle_conn, hp, countSends]
    · rintro ⟨r, hr⟩
      exact Except.noConfusion hr
  · refine ⟨Or.inr ⟨r, ?_⟩, ?_, ?_, ?_, ?_⟩
    · simp [handle_conn, hp]
    · simp [handle_conn, hp]
    · simp [handle_conn, hp, countCloses]
    · simp [handle_conn, hp, countSends]
    · intro _
      simp [handle_conn, hp, countSends]

/-- C9 witness: a concrete connection whose inner block succeeds sends
exactly once. -/
theorem handle_conn_trace_witness :
    countSends (handle_conn fsEmpty (chars "/srv") (chars "abc")) = 1 :=
  (handle_conn_trace fsEmpty (chars "/srv") (chars "abc")).2.2.2.2
    ⟨response_method_not_allowed, rfl⟩

/-- C10: a request containing `GET` but with fewer than two
whitespace-delimited tokens makes `parse_request` fail with `IndexError`,
an error distinct from the unsupported-method and not-found errors; the
inner block does not catch it, so the handler sends nothing and only
closes the connection. -/
theorem parse_request_index_error :
    ∀ (fs : FileSystem) (cwd request : List Char),
      containsSub (chars "GET") request = true →
      (pySplit request).length < 2 →
      parse_request request = Except.error PyError.indexError
      ∧ PyError.indexError ≠ PyError.notImplementedError
      ∧ PyError.indexError ≠ PyError.nameError
      ∧ process fs cwd request = Except.error PyError.indexError
      ∧ handle_conn fs cwd request = [ConnEvent.close] := by
  intro fs cwd request hG hlen
  have hpr : parse_request request = Except.error PyError.indexError := by
    simp only [parse_request, hG, Bool.true_eq_false, if_false]
    rcases hs : pySplit request with _ | ⟨a, _ | ⟨b, rest⟩⟩
    · rfl
    · rfl
    · rw [hs] at hlen
      simp only [List.length_cons] at hlen
      omega
  refine ⟨hpr, by decide, by decide, ?_, ?_⟩
  · simp [process, try_block, hpr]
  · simp [handle_conn, process, try_block, hpr]

/-- C10 witness: the request `"GET\r\n\r\n"` has a single token, so the
subscript fails and the connection is closed with nothing sent. -/
theorem parse_request_index_error_witness :
    parse_request (chars "GET\r\n\r\n") = Except.error PyError.indexError
    ∧ handle_conn fsEmpty (chars "/srv") (chars "GET\r\n\r\n") = [ConnEvent.close] := by
  have h := parse_request_index_error fsEmpty (chars "/srv") (chars "GET\r\n\r\n")
    (by decide) (by decide)
  exact ⟨h.1, h.2.2.2.2⟩

end HttpServer
